import Mathlib

/-!
Verification of the LokerPuller ingestion pipeline and persistence store.

This file is a shallow embedding, in Lean 4, of the parts of the
`lokerpuller` Python package that the verified properties are about:

* `lokerpuller/utils/validation.py` — the Location Classifier
  (`validate_sea_country`), the search-parameter validator
  (`validate_search_params`) and the Sanitizer (`sanitize_job_data`);
* `lokerpuller/utils/constants.py` — the `SEA_COUNTRIES` alias table and
  the `jobs` table schema (`UNIQUE(job_url, site)`);
* `lokerpuller/database/manager.py` — `DatabaseManager.insert_jobs`,
  `DatabaseManager.search_jobs` and `DatabaseManager.get_statistics`;
* `lokerpuller/core/scraper.py` — `JobScraper.scrape_jobs` and its
  per-site helper;
* `lokerpuller/api/app.py` — the `per_page` cap of the `/api/jobs` route.

The SQLite database is modelled as a list of rows in insertion order.
Python values that can appear in the raw scraped dictionaries are
modelled by the inductive type `PyVal`; Python numbers are modelled by
`Rat` (exact rationals; the code performs no arithmetic whose rounding
behaviour any verified property depends on).  Modelling notes that apply
to a single definition are recorded in its doc comment.
-/

namespace LokerPuller

/-! ## String helpers

Python string operations and SQLite text comparison are modelled over
`List Char`.  SQLite compares TEXT values with memcmp over UTF-8, which
coincides with lexicographic comparison of code points, which is what
`charsLe` implements.  Python `str.lower()`/`str.upper()`/`str.strip()` are modelled by
char-level functions over code points; these agree with Python on ASCII
data (all alias-table entries and all data the verified properties
touch are ASCII).
-/

/-- Lexicographic comparison of character lists by code point. -/
def charsLe : List Char → List Char → Bool
  | [], _ => true
  | _ :: _, [] => false
  | x :: xs, y :: ys =>
    if x.toNat < y.toNat then true
    else if y.toNat < x.toNat then false
    else charsLe xs ys

/-- `strLeB s t` models `s <= t` for SQLite TEXT values. -/
def strLeB (s t : String) : Bool := charsLe s.toList t.toList

/-- ASCII lower-casing of a code point (`str.lower()` on ASCII data —
every string any verified property folds is ASCII). -/
def lowerCode (n : Nat) : Nat := if 65 ≤ n && n ≤ 90 then n + 32 else n

/-- ASCII upper-casing of a code point (`str.upper()` on ASCII data). -/
def upperCode (n : Nat) : Nat := if 97 ≤ n && n ≤ 122 then n - 32 else n

/-- The lower-cased code points of a string. -/
def strLowerCodes (s : String) : List Nat :=
  s.toList.map (fun c => lowerCode c.toNat)

/-- The upper-cased code points of a string. -/
def strUpperCodes (s : String) : List Nat :=
  s.toList.map (fun c => upperCode c.toNat)

/-- `listContainsSub needle hay` is true iff `needle` occurs as a
contiguous sublist of `hay`; models Python `needle in hay`. -/
def listContainsSub (needle : List Nat) : List Nat → Bool
  | [] => needle.isEmpty
  | c :: rest => needle.isPrefixOf (c :: rest) || listContainsSub needle rest

/-- Case-insensitive substring test: models
`needle.lower() in hay.lower()` (ASCII case folding). -/
def ciContains (needle hay : String) : Bool :=
  listContainsSub (strLowerCodes needle) (strLowerCodes hay)

/-- ASCII whitespace, as stripped by `str.strip()` on the data at
hand. -/
def isPyWs (c : Char) : Bool :=
  c == ' ' || c == '\t' || c == '\n' || c == '\r' ||
  c.toNat == 11 || c.toNat == 12

/-- `str.strip()`: drops leading and trailing whitespace. -/
def pyStrip (s : String) : String :=
  String.mk ((((s.toList.dropWhile isPyWs).reverse).dropWhile isPyWs).reverse)

/-! ## Python values -/

/-- A Python value as it can appear in a raw scraped job dictionary or
in a search-filter dictionary.  Numbers are exact rationals. -/
inductive PyVal where
  | none
  | str (s : String)
  | int (n : Int)
  | float (q : Rat)
  | bool (b : Bool)
deriving DecidableEq, Repr

/-- Python truthiness (`bool(v)`): `None`, `""`, `0`, `0.0` and `False`
are falsy, everything else of these types is truthy. -/
def pyTruthy : PyVal → Bool
  | .none => false
  | .str s => !(s == "")
  | .int n => !(n == 0)
  | .float q => !(q == 0)
  | .bool b => b

/-- Python `str(v)`.  For `float` values the exact CPython repr (shortest
round-tripping decimal) is not reproduced; no verified property converts
a float to a string, so the placeholder rendering of `Rat` is inert. -/
def pyStr : PyVal → String
  | .none => "None"
  | .str s => s
  | .int n => toString n
  | .float q => toString q
  | .bool b => if b then "True" else "False"

/-- Value of a list of decimal digit characters. -/
def digitsToNat (cs : List Char) : Nat :=
  cs.foldl (fun a c => a * 10 + (c.toNat - 48)) 0

/-- All characters are decimal digits and there is at least one. -/
def allDigits (cs : List Char) : Bool :=
  !cs.isEmpty && cs.all (·.isDigit)

/-- Parse an unsigned decimal literal (`123`, `123.45`, `.5`, `7.`) to a
rational.  Models the plain-decimal forms accepted by Python `float`;
exponent, `inf`/`nan` and underscore forms are outside the inputs any
verified property uses and are rejected here. -/
def parseUnsignedDec (cs : List Char) : Option Rat :=
  match cs.splitOn '.' with
  | [whole] => if allDigits whole then some (digitsToNat whole) else Option.none
  | [whole, frac] =>
    if (whole.all (·.isDigit)) && (frac.all (·.isDigit)) && !(whole.isEmpty && frac.isEmpty)
    then some ((digitsToNat whole : Rat) + (digitsToNat frac : Rat) / ((10 : Rat) ^ frac.length))
    else Option.none
  | _ => Option.none

/-- Parse a signed decimal literal after stripping whitespace; models
Python `float(s)` returning `Option.none` where Python raises. -/
def parsePyFloat (s : String) : Option Rat :=
  match (pyStrip s).toList with
  | '+' :: rest => parseUnsignedDec rest
  | '-' :: rest => (parseUnsignedDec rest).map Neg.neg
  | rest => parseUnsignedDec rest

/-- Python `float(v)` for a `PyVal`, `Option.none` where Python raises
(`ValueError` on an unparsable string, `TypeError` on `None`). -/
def pyFloat : PyVal → Option Rat
  | .none => Option.none
  | .str s => parsePyFloat s
  | .int n => some (n : Rat)
  | .float q => some q
  | .bool b => some (if b then 1 else 0)

/-- Truncation of a rational toward zero, as Python `int(float)`. -/
def ratTrunc (q : Rat) : Int :=
  if 0 ≤ q then q.floor else -((-q).floor)

/-- Parse a signed integer literal; models Python `int(s)`. -/
def parsePyInt (s : String) : Option Int :=
  match (pyStrip s).toList with
  | '+' :: rest => if allDigits rest then some (digitsToNat rest : Int) else Option.none
  | '-' :: rest => if allDigits rest then some (-(digitsToNat rest : Int)) else Option.none
  | rest => if allDigits rest then some (digitsToNat rest : Int) else Option.none

/-- Python `int(v)` for a `PyVal`, `Option.none` where Python raises. -/
def pyIntOf : PyVal → Option Int
  | .none => Option.none
  | .str s => parsePyInt s
  | .int n => some n
  | .float q => some (ratTrunc q)
  | .bool b => some (if b then 1 else 0)

/-- A raw job dictionary (Python `dict`); keys are unique in a Python
dict, lookup takes the first matching key. -/
def RawJob : Type := List (String × PyVal)

/-- Python `d.get(k)` distinguishing an absent key from a present one. -/
def dictGet (d : RawJob) (k : String) : Option PyVal :=
  ((List.find? (fun p => p.1 == k) d)).map (fun p => p.2)

/-! ## Constants (`lokerpuller/utils/constants.py`) -/

/-- The `SEA_COUNTRIES` table: each of the five recognized countries
mapped to its alias list (country name plus major cities). -/
def SEA_COUNTRIES : List (String × List String) :=
  [("Indonesia", ["Indonesia", "Jakarta", "Surabaya", "Bandung", "Medan"]),
   ("Malaysia", ["Malaysia", "Kuala Lumpur", "Penang", "Johor Bahru", "Selangor"]),
   ("Thailand", ["Thailand", "Bangkok", "Chiang Mai", "Phuket", "Pattaya"]),
   ("Vietnam", ["Vietnam", "Ho Chi Minh City", "Hanoi", "Da Nang", "Hue"]),
   ("Singapore", ["Singapore"])]

/-! ## Location Classifier (`validation.validate_sea_country`) -/

/-- `validate_sea_country(location)`: false on `None` or the empty
string, otherwise true iff some alias of some recognized country occurs
case-insensitively in the location.  The `Option` input models the
Python argument being `None`. -/
def validate_sea_country : Option String → Bool
  | Option.none => false
  | some loc =>
    if loc == "" then false
    else SEA_COUNTRIES.any (fun p => p.2.any (fun city => ciContains city loc))

/-! ## Search-parameter validator (`validation.validate_search_params`) -/

/-- True iff the location textually contains (case-insensitively) one of
the five recognized country names — the keys of `SEA_COUNTRIES` only,
not the city aliases. -/
def locationHasCountryName (location : String) : Bool :=
  SEA_COUNTRIES.any (fun p => ciContains p.1 location)

/-- `validate_search_params(search_term, location, results)`: returns
`(is_valid, error_message)`, checking the conditions in source order. -/
def validate_search_params (search_term location : String) (results : Int) :
    Bool × String :=
  if pyStrip search_term == "" then (false, "Search term cannot be empty")
  else if pyStrip location == "" then (false, "Location cannot be empty")
  else if results ≤ 0 then (false, "Results must be greater than 0")
  else if results > 200 then (false, "Results cannot exceed 200")
  else if !locationHasCountryName location then
    (false, "Location must be in Southeast Asia: Indonesia, Malaysia, Thailand, Vietnam, Singapore")
  else (true, "")

/-! ## Sanitizer (`validation.sanitize_job_data`) -/

/-- The record produced by `sanitize_job_data`: the three required
string fields, the 27 optional string fields, the three numeric fields
and the `is_remote` flag (stored as the integer `0` or `1`, as the
Python code produces for the INTEGER column). -/
structure SanitizedJob where
  site : String := ""
  job_url : String := ""
  title : String := ""
  job_url_direct : Option String := Option.none
  company_name : Option String := Option.none
  location : Option String := Option.none
  job_type : Option String := Option.none
  date_posted : Option String := Option.none
  interval : Option String := Option.none
  currency : Option String := Option.none
  job_level : Option String := Option.none
  job_function : Option String := Option.none
  company_industry : Option String := Option.none
  listing_type : Option String := Option.none
  emails : Option String := Option.none
  description : Option String := Option.none
  company_url : Option String := Option.none
  company_url_direct : Option String := Option.none
  company_addresses : Option String := Option.none
  company_num_employees : Option String := Option.none
  company_revenue : Option String := Option.none
  company_description : Option String := Option.none
  logo_photo_url : Option String := Option.none
  banner_photo_url : Option String := Option.none
  ceo_name : Option String := Option.none
  ceo_photo_url : Option String := Option.none
  compensation_interval : Option String := Option.none
  salary_source : Option String := Option.none
  skills : Option String := Option.none
  experience_range : Option String := Option.none
  min_amount : Option Rat := Option.none
  max_amount : Option Rat := Option.none
  company_rating : Option Rat := Option.none
  is_remote : Nat := 0
deriving DecidableEq, Repr

/-- A required field: `str(job_data.get(k, '')).strip()`.  Note that a
key present with value `None` yields the string `"None"` (Python
`str(None)`), while an absent key yields `""`. -/
def requiredField (d : RawJob) (k : String) : String :=
  match dictGet d k with
  | Option.none => ""
  | some v => pyStrip (pyStr v)

/-- An optional string field: `str(value).strip()` when the value is
present and not `None`, otherwise null. -/
def optionalStringField (d : RawJob) (k : String) : Option String :=
  match dictGet d k with
  | Option.none => Option.none
  | some .none => Option.none
  | some v => some (pyStrip (pyStr v))

/-- A numeric field: `float(value)` when present and not `None`, null on
absence, `None`, or coercion failure (the `except` branch). -/
def numericField (d : RawJob) (k : String) : Option Rat :=
  match dictGet d k with
  | Option.none => Option.none
  | some .none => Option.none
  | some v => pyFloat v

/-- The `is_remote` coercion: a `bool` maps to its 0/1 value; an `int`
or `str` maps to 1 iff its lowercased string form is `true`, `1` or
`yes`; anything else (absent, `None`, `float`) maps to 0. -/
def remoteField (d : RawJob) : Nat :=
  match dictGet d "is_remote" with
  | some (.bool b) => if b then 1 else 0
  | some (.int n) =>
    if strLowerCodes (toString n) == strLowerCodes "true" ||
       strLowerCodes (toString n) == strLowerCodes "1" ||
       strLowerCodes (toString n) == strLowerCodes "yes"
    then 1 else 0
  | some (.str s) =>
    if strLowerCodes s == strLowerCodes "true" || strLowerCodes s == strLowerCodes "1" ||
       strLowerCodes s == strLowerCodes "yes" then 1 else 0
  | _ => 0

/-- `sanitize_job_data(job_data)`: total — the Python function catches
every numeric-coercion failure and raises on no input. -/
def sanitize_job_data (d : RawJob) : SanitizedJob where
  site := requiredField d "site"
  job_url := requiredField d "job_url"
  title := requiredField d "title"
  job_url_direct := optionalStringField d "job_url_direct"
  company_name := optionalStringField d "company_name"
  location := optionalStringField d "location"
  job_type := optionalStringField d "job_type"
  date_posted := optionalStringField d "date_posted"
  interval := optionalStringField d "interval"
  currency := optionalStringField d "currency"
  job_level := optionalStringField d "job_level"
  job_function := optionalStringField d "job_function"
  company_industry := optionalStringField d "company_industry"
  listing_type := optionalStringField d "listing_type"
  emails := optionalStringField d "emails"
  description := optionalStringField d "description"
  company_url := optionalStringField d "company_url"
  company_url_direct := optionalStringField d "company_url_direct"
  company_addresses := optionalStringField d "company_addresses"
  company_num_employees := optionalStringField d "company_num_employees"
  company_revenue := optionalStringField d "company_revenue"
  company_description := optionalStringField d "company_description"
  logo_photo_url := optionalStringField d "logo_photo_url"
  banner_photo_url := optionalStringField d "banner_photo_url"
  ceo_name := optionalStringField d "ceo_name"
  ceo_photo_url := optionalStringField d "ceo_photo_url"
  compensation_interval := optionalStringField d "compensation_interval"
  salary_source := optionalStringField d "salary_source"
  skills := optionalStringField d "skills"
  experience_range := optionalStringField d "experience_range"
  min_amount := numericField d "min_amount"
  max_amount := numericField d "max_amount"
  company_rating := numericField d "company_rating"
  is_remote := remoteField d

/-! ## Persistence Store: rows and `insert_jobs`
(`database/manager.py`, schema in `utils/constants.py`)

The `jobs` table is modelled as a `List Row` in insertion order; the
surrogate autoincrement id is the list position and is not materialised.
`scraped_at` is the `CURRENT_TIMESTAMP` default; `insert_jobs` takes the
timestamp as a parameter (one per call — the sub-second drift between
rows of one call is irrelevant to every verified property).
-/

/-- One stored row: a sanitized record plus its `scraped_at` stamp. -/
structure Row where
  job : SanitizedJob
  scraped_at : String
deriving DecidableEq, Repr

/-- True iff some stored row already has this `(job_url, site)` pair —
the `UNIQUE(job_url, site)` constraint check.  Both columns are NOT NULL
and the sanitizer always supplies strings, so the SQLite rule that NULLs
are pairwise distinct in a UNIQUE index never applies. -/
def pairMem (db : List Row) (u s : String) : Bool :=
  db.any (fun r => r.job.job_url == u && r.job.site == s)

/-- `INSERT OR IGNORE` of one sanitized record: appended unless the
`(job_url, site)` pair exists; returns the new table and the
`(inserted, skipped)` contribution of this record. -/
def insertSan (db : List Row) (j : SanitizedJob) (ts : String) :
    List Row × Nat × Nat :=
  if pairMem db j.job_url j.site then (db, 0, 0)
  else (db ++ [⟨j, ts⟩], 1, 0)

/-- Processing of one raw record inside the `insert_jobs` loop:

* a present, truthy location that is a string failing
  `validate_sea_country` → counted as skipped, not inserted;
* a present, truthy location that is not a string →
  `validate_sea_country` raises `AttributeError` on `.lower()`, the
  per-record `except` catches it and `continue`s: neither inserted nor
  counted as skipped;
* otherwise (absent, `None`, or falsy location; or a truthy string
  location passing the classifier) → sanitize and `INSERT OR IGNORE`. -/
def insertOneDict (db : List Row) (d : RawJob) (ts : String) :
    List Row × Nat × Nat :=
  match dictGet d "location" with
  | some v =>
    if pyTruthy v then
      match v with
      | .str s =>
        if validate_sea_country (some s) then insertSan db (sanitize_job_data d) ts
        else (db, 0, 1)
      | _ => (db, 0, 0)
    else insertSan db (sanitize_job_data d) ts
  | Option.none => insertSan db (sanitize_job_data d) ts

/-- `DatabaseManager.insert_jobs`: processes the records in order and
returns `(table, inserted_count, skipped_count)`.  The batch size of 50
only controls commit granularity and is semantically inert; the
`if not jobs_data: return 0` guard coincides with the empty fold. -/
def insert_jobs (db : List Row) (l : List RawJob) (ts : String) :
    List Row × Nat × Nat :=
  match l with
  | [] => (db, 0, 0)
  | d :: rest =>
    let step := insertOneDict db d ts
    let next := insert_jobs step.1 rest ts
    (next.1, step.2.1 + next.2.1, step.2.2 + next.2.2)

/-- The branch condition under which a record reaches the
`INSERT OR IGNORE` statement (a pure function of the record). -/
def reachesInsert (d : RawJob) : Bool :=
  match dictGet d "location" with
  | some v =>
    if pyTruthy v then
      match v with
      | .str s => validate_sea_country (some s)
      | _ => false
    else true
  | Option.none => true

/-- No `(job_url, site)` pair occurs in two distinct rows. -/
def pairsDistinct (db : List Row) : Prop :=
  db.Pairwise (fun a b => ¬(a.job.job_url = b.job.job_url ∧ a.job.site = b.job.site))

/-! ## Persistence Store: `search_jobs`

The WHERE clause is a conjunction of conditions, each added only when
`filters.get(key)` is truthy (`if filters.get('title'): ...`).  SQL
three-valued logic collapses to the Boolean conditions below: a
comparison with a NULL column is NULL, `NULL OR x` is `x`, and a NULL
WHERE result excludes the row — so a NULL operand simply makes its
comparison false.  `LIKE '%v%'` is modelled as ASCII-case-insensitive
substring containment (no verified property passes a pattern containing
the `%` or `_` metacharacters).  `ORDER BY` uses the SQLite ordering
NULL < numeric < text; ties keep table order (SQLite leaves tie order
unspecified; the model commits to the stable insertion-sort order).
`LIMIT`/`OFFSET` follow SQLite: a negative LIMIT means no bound, a
negative OFFSET means zero.
-/

/-- A SQLite value as compared by ORDER BY (BLOBs never occur). -/
inductive SqlVal where
  | null
  | real (q : Rat)
  | text (s : String)
deriving DecidableEq, Repr

/-- SQLite ordering: NULL < REAL < TEXT, REALs numerically, TEXTs by
memcmp over UTF-8 (code-point lexicographic). -/
def sqlLe : SqlVal → SqlVal → Bool
  | .null, _ => true
  | .real _, .null => false
  | .real p, .real q => p ≤ q
  | .real _, .text _ => true
  | .text _, .null => false
  | .text _, .real _ => false
  | .text s, .text t => strLeB s t

/-- The ORDER BY key of a row for each allow-listed sort field.  The
catch-all branch is unreachable: `search_jobs` replaces any other field
name by `scraped_at` before sorting. -/
def sortKey (fld : String) (r : Row) : SqlVal :=
  if fld == "title" then .text r.job.title
  else if fld == "company_name" then
    match r.job.company_name with
    | some s => .text s
    | Option.none => .null
  else if fld == "location" then
    match r.job.location with
    | some s => .text s
    | Option.none => .null
  else if fld == "min_amount" then
    match r.job.min_amount with
    | some q => .real q
    | Option.none => .null
  else if fld == "max_amount" then
    match r.job.max_amount with
    | some q => .real q
    | Option.none => .null
  else if fld == "date_posted" then
    match r.job.date_posted with
    | some s => .text s
    | Option.none => .null
  else .text r.scraped_at

/-- Row comparison used for ORDER BY: ascending compares keys directly,
descending compares them flipped. -/
def rowLe (fld : String) (asc : Bool) (a b : Row) : Prop :=
  (if asc then sqlLe (sortKey fld a) (sortKey fld b)
   else sqlLe (sortKey fld b) (sortKey fld a)) = true

instance (fld : String) (asc : Bool) : DecidableRel (rowLe fld asc) :=
  fun _ _ => Bool.decEq _ true

/-- The search filters dictionary: one optional raw value per recognized
key (an absent key and a key present with value `None` both model what
`filters.get(k)` makes falsy). -/
structure Filters where
  title : Option PyVal := Option.none
  company : Option PyVal := Option.none
  location : Option PyVal := Option.none
  country : Option PyVal := Option.none
  job_type : Option PyVal := Option.none
  site : Option PyVal := Option.none
  is_remote : Option PyVal := Option.none
  min_salary : Option PyVal := Option.none
  max_salary : Option PyVal := Option.none
  days_old : Option PyVal := Option.none
  sort_by : Option PyVal := Option.none
  sort_order : Option PyVal := Option.none
deriving DecidableEq, Repr

/-- The `if filters.get(key): add condition` gate: a WHERE condition
participates only when the value is present and truthy. -/
def applyGate (o : Option PyVal) (cond : PyVal → Bool) : Bool :=
  match o with
  | some v => if pyTruthy v then cond v else true
  | Option.none => true

/-- Coercion-success gate: when the value is present and truthy, the
parameter coercion performed while building the WHERE clause must
succeed (otherwise Python raises out of `search_jobs`). -/
def gateOk (o : Option PyVal) (chk : PyVal → Bool) : Bool :=
  match o with
  | some v => !pyTruthy v || chk v
  | Option.none => true

/-- `column LIKE '%' || str(v) || '%'` against a nullable TEXT column:
false on NULL, else case-insensitive containment. -/
def likeContains (v : PyVal) (col : Option String) : Bool :=
  match col with
  | Option.none => false
  | some s => ciContains (pyStr v) s

/-- `column = ?` against a nullable TEXT column: NULL never matches, and
a parameter that is not a string never equals a TEXT value. -/
def sqlEqOptText (v : PyVal) (col : Option String) : Bool :=
  match v, col with
  | .str t, some s => t == s
  | _, _ => false

/-- `column = ?` against a NOT NULL TEXT column. -/
def sqlEqText (v : PyVal) (col : String) : Bool :=
  match v with
  | .str t => t == col
  | _ => false

/-- `min_amount >= s OR max_amount >= s` with NULL-is-false atoms. -/
def minSalaryCond (s : Rat) (r : Row) : Bool :=
  (match r.job.min_amount with | some a => s ≤ a | Option.none => false) ||
  (match r.job.max_amount with | some b => s ≤ b | Option.none => false)

/-- `min_amount <= s OR max_amount <= s` with NULL-is-false atoms. -/
def maxSalaryCond (s : Rat) (r : Row) : Bool :=
  (match r.job.min_amount with | some a => a ≤ s | Option.none => false) ||
  (match r.job.max_amount with | some b => b ≤ s | Option.none => false)

/-- The `is_remote` parameter: `1 if str(v).lower() == 'true' else 0`. -/
def remoteParam (v : PyVal) : Nat :=
  if strLowerCodes (pyStr v) == strLowerCodes "true" then 1 else 0

/-- The full WHERE clause as a predicate on a row.  `cutoff` abstracts
`(datetime.now() - timedelta(days=d)).strftime(...)`: the wall clock is
outside the model, so the cutoff string is a parameter of the search.
The `getD` defaults are never used on inputs passing `filterBuildOk`. -/
def rowMatches (f : Filters) (cutoff : Int → String) (r : Row) : Bool :=
  applyGate f.title (fun v => likeContains v (some r.job.title)) &&
  applyGate f.company (fun v => likeContains v r.job.company_name) &&
  applyGate f.location (fun v => likeContains v r.job.location) &&
  applyGate f.country (fun v => likeContains v r.job.location) &&
  applyGate f.job_type (fun v => sqlEqOptText v r.job.job_type) &&
  applyGate f.site (fun v => sqlEqText v r.job.site) &&
  applyGate f.is_remote (fun v => remoteParam v == r.job.is_remote) &&
  applyGate f.min_salary (fun v => minSalaryCond ((pyFloat v).getD 0) r) &&
  applyGate f.max_salary (fun v => maxSalaryCond ((pyFloat v).getD 0) r) &&
  applyGate f.days_old (fun v => strLeB (cutoff ((pyIntOf v).getD 0)) r.scraped_at)

/-- True iff building the WHERE/ORDER BY clauses raises no exception:
`float(filters['min_salary'])`, `float(filters['max_salary'])` and
`int(filters['days_old'])` are evaluated under their truthiness gates,
and `filters.get('sort_order', 'desc').upper()` requires the present
value to be a string (it is evaluated with no truthiness gate). -/
def filterBuildOk (f : Filters) : Bool :=
  gateOk f.min_salary (fun v => (pyFloat v).isSome) &&
  gateOk f.max_salary (fun v => (pyFloat v).isSome) &&
  gateOk f.days_old (fun v => (pyIntOf v).isSome) &&
  (match f.sort_order with
   | some (.str _) => true
   | some _ => false
   | Option.none => true)

/-- The sort-field allow-list of `search_jobs`. -/
def valid_sort_fields : List String :=
  ["title", "company_name", "location", "min_amount", "max_amount",
   "date_posted", "scraped_at"]

/-- `filters.get('sort_by', 'scraped_at')` followed by the allow-list
check: any absent, non-string or out-of-list value falls back to
`scraped_at`. -/
def sortField (o : Option PyVal) : String :=
  match o with
  | some (.str s) => if valid_sort_fields.contains s then s else "scraped_at"
  | some _ => "scraped_at"
  | Option.none => "scraped_at"

/-- `filters.get('sort_order', 'desc').upper()` then the ASC/DESC check:
ascending iff the uppercased value is exactly `ASC`. -/
def sortAsc (o : Option PyVal) : Bool :=
  match o with
  | some (.str s) => strUpperCodes s == strUpperCodes "ASC"
  | _ => false

/-- `LIMIT per_page OFFSET (page - 1) * per_page` with SQLite
semantics: a negative LIMIT imposes no bound; a negative OFFSET (and
`Int.toNat` maps negatives to 0) behaves as zero. -/
def pageSlice (page per_page : Int) (l : List Row) : List Row :=
  if per_page < 0 then l.drop ((page - 1) * per_page).toNat
  else (l.drop ((page - 1) * per_page).toNat).take per_page.toNat

/-- `DatabaseManager.search_jobs(filters, page, per_page)`: returns
`Option.none` where Python raises while building the clauses, otherwise
`some (rows, total_count)`.  `total_count` comes from the COUNT query
over the same WHERE clause with no LIMIT/OFFSET. -/
def search_jobs (db : List Row) (f : Filters) (cutoff : Int → String)
    (page per_page : Int) : Option (List Row × Nat) :=
  if filterBuildOk f then
    some (pageSlice page per_page
            ((db.filter (rowMatches f cutoff)).insertionSort
              (rowLe (sortField f.sort_by) (sortAsc f.sort_order))),
          (db.filter (rowMatches f cutoff)).length)
  else Option.none

/-- The configured global maximum page size
(`Settings.max_results_per_request`, default 200). -/
def max_results_per_request : Int := 200

/-- The `/api/jobs` route's pagination handling:
`per_page = min(int(request.args.get('per_page', 20)), settings.max_results_per_request)`
then delegation to `search_jobs`. -/
def get_jobs_page (db : List Row) (f : Filters) (cutoff : Int → String)
    (page per_page : Int) : Option (List Row × Nat) :=
  search_jobs db f cutoff page (min per_page max_results_per_request)

/-- Replaces every falsy-valued WHERE filter by an absent one (the
transformation the implicit falsy-is-absent property compares against).
`sort_by`/`sort_order` are not WHERE filters and are left untouched. -/
def keepTruthy (o : Option PyVal) : Option PyVal :=
  match o with
  | some v => if pyTruthy v then some v else Option.none
  | Option.none => Option.none

/-- `pruneFalsy f` drops the falsy-valued WHERE filters of `f`. -/
def pruneFalsy (f : Filters) : Filters :=
  { f with
    title := keepTruthy f.title
    company := keepTruthy f.company
    location := keepTruthy f.location
    country := keepTruthy f.country
    job_type := keepTruthy f.job_type
    site := keepTruthy f.site
    is_remote := keepTruthy f.is_remote
    min_salary := keepTruthy f.min_salary
    max_salary := keepTruthy f.max_salary
    days_old := keepTruthy f.days_old }

/-! ## Persistence Store: `get_statistics` -/

/-- The `salary_stats` sub-dictionary.  `min_salary`/`max_salary` are
nullable (SQL `MIN`/`MAX` over an all-NULL column is NULL); the
no-salary-data branch fills every field with the number zero. -/
structure SalaryStats where
  avg_min_salary : Rat
  avg_max_salary : Rat
  min_salary : Option Rat
  max_salary : Option Rat
  jobs_with_salary : Nat
  percentage_with_salary : Rat
deriving DecidableEq, Repr

/-- The statistics dictionary.  The per-country and per-site counts are
modelled as count functions; the source additionally presents them as
lists sorted by descending count, whose tie order SQLite leaves
unspecified. -/
structure Statistics where
  total_jobs : Nat
  jobs_by_country : String → Nat
  jobs_by_site : String → Nat
  remote_percentage : Rat
  salary_stats : SalaryStats

/-- The CASE expression bucketing a row's location into a country label
for the statistics query — a keyword classifier independent of (and
looser than) `validate_sea_country`.  `LIKE` is ASCII-case-insensitive;
a NULL location matches no WHEN arm and buckets to `Other`. -/
def country_bucket (r : Row) : String :=
  match r.job.location with
  | Option.none => "Other"
  | some loc =>
    if ciContains "Singapore" loc then "Singapore"
    else if ciContains "Indonesia" loc || ciContains "Jakarta" loc then "Indonesia"
    else if ciContains "Malaysia" loc || ciContains "Kuala Lumpur" loc then "Malaysia"
    else if ciContains "Thailand" loc || ciContains "Bangkok" loc then "Thailand"
    else if ciContains "Vietnam" loc || ciContains "Ho Chi Minh" loc || ciContains "Hanoi" loc then "Vietnam"
    else "Other"

/-- Sum of a list of rationals. -/
def ratSum (l : List Rat) : Rat := l.foldl (· + ·) 0

/-- Minimum of a list of rationals (`Option.none` on empty — SQL `MIN`
ignoring NULLs). -/
def ratMin : List Rat → Option Rat
  | [] => Option.none
  | q :: rest =>
    match ratMin rest with
    | Option.none => some q
    | some m => some (min q m)

/-- Maximum of a list of rationals (`Option.none` on empty). -/
def ratMax : List Rat → Option Rat
  | [] => Option.none
  | q :: rest =>
    match ratMax rest with
    | Option.none => some q
    | some m => some (max q m)

/-- `round(x, n)` on an exact rational.  Python rounds ties to even;
this model uses `round` (ties toward positive infinity).  The
difference surfaces only on exact half-way values, which no verified
property exercises (the property verified about statistics lives
entirely in the no-salary-data branch, where no rounding runs). -/
def pyRound (x : Rat) (n : Nat) : Rat :=
  (round (x * (10 : Rat) ^ n) : Rat) / (10 : Rat) ^ n

/-- `AVG(column)` over the salary rows followed by `or 0`: the average
of the non-NULL values, 0 when all are NULL (AVG returns NULL, and
`None or 0` — like `0.0 or 0` — yields 0), rounded to 2 places. -/
def avgOrZero (l : List Rat) : Rat :=
  match l with
  | [] => 0
  | _ => pyRound (ratSum l / (l.length : Rat)) 2

/-- The `WHERE min_amount IS NOT NULL OR max_amount IS NOT NULL` filter
of the salary-statistics query. -/
def hasSalary (r : Row) : Bool :=
  r.job.min_amount.isSome || r.job.max_amount.isSome

/-- The `salary_stats` computation: the guarded branch runs only when
the salary query counted at least one row, otherwise every field is
filled with zero and no division happens. -/
def salaryStatsOf (db : List Row) : SalaryStats :=
  if (db.filter hasSalary).length > 0 then
    { avg_min_salary := avgOrZero ((db.filter hasSalary).filterMap (fun r => r.job.min_amount))
      avg_max_salary := avgOrZero ((db.filter hasSalary).filterMap (fun r => r.job.max_amount))
      min_salary := ratMin ((db.filter hasSalary).filterMap (fun r => r.job.min_amount))
      max_salary := ratMax ((db.filter hasSalary).filterMap (fun r => r.job.max_amount))
      jobs_with_salary := (db.filter hasSalary).length
      percentage_with_salary :=
        if db.length > 0 then
          pyRound (((db.filter hasSalary).length : Rat) / (db.length : Rat) * 100) 1
        else 0 }
  else
    { avg_min_salary := 0
      avg_max_salary := 0
      min_salary := some 0
      max_salary := some 0
      jobs_with_salary := 0
      percentage_with_salary := 0 }

/-- `DatabaseManager.get_statistics()`. -/
def get_statistics (db : List Row) : Statistics :=
  { total_jobs := db.length
    jobs_by_country := fun c => (db.filter (fun r => country_bucket r == c)).length
    jobs_by_site := fun s => (db.filter (fun r => r.job.site == s)).length
    remote_percentage :=
      if db.length > 0 then
        ((db.filter (fun r => r.job.is_remote == 1)).length : Rat) / (db.length : Rat) * 100
      else 0
    salary_stats := salaryStatsOf db }

/-! ## Ingestion Orchestrator (`core/scraper.py`)

The external scrape capability (`jobspy.scrape_jobs`) is a parameter: a
pure function from a site name to the raw records it returns for the
fixed search parameters of the run.  A capability failure (exception or
empty frame) is indistinguishable from returning `[]`, which is exactly
how `scrape_site_with_logging` recovers from it.
-/

/-- `JobScraper.scrape_site_with_logging`: the SEA filter
`if job.get('location') and validate_sea_country(job['location'])`
keeps a record iff its location is a truthy string passing the
classifier.  A truthy non-string location makes `validate_sea_country`
raise inside the loop; the site-level `except` then discards the whole
site's results and returns `[]`. -/
def scrape_site (capability : String → List RawJob) (site : String) :
    List RawJob :=
  let jobs := capability site
  if jobs.any (fun j =>
      match dictGet j "location" with
      | some v =>
        pyTruthy v && (match v with | .str _ => false | _ => true)
      | Option.none => false)
  then []
  else jobs.filter (fun j =>
    match dictGet j "location" with
    | some (.str s) => pyTruthy (.str s) && validate_sea_country (some s)
    | _ => false)

/-- `JobScraper.scrape_jobs`: validates the parameters first and raises
`ValueError` (modelled as `Except.error` carrying the message) before
touching the capability; otherwise scrapes every site sequentially,
accumulates the survivors, and inserts them (skipping the insert call
when nothing survived).  Returns the new table and the inserted count.
The inter-site `time.sleep` throttling is semantically inert. -/
def scrape_jobs (capability : String → List RawJob) (db : List Row)
    (search_term location : String) (results_per_site : Int)
    (sites : Option (List String)) (ts : String) :
    Except String (List Row × Nat) :=
  if (validate_search_params search_term location results_per_site).1 then
    match ((sites.getD ["indeed", "linkedin"]).map (scrape_site capability)).flatten with
    | [] => Except.ok (db, 0)
    | d :: rest =>
      Except.ok ((insert_jobs db (d :: rest) ts).1, (insert_jobs db (d :: rest) ts).2.1)
  else Except.error (validate_search_params search_term location results_per_site).2

/-! ## Concrete fixtures

Raw records, rows and filter dictionaries used by the concrete
counterexamples and witnesses below. -/

/-- A raw record carrying only the three required fields. -/
def minimalRaw : RawJob :=
  [("site", .str "indeed"), ("job_url", .str "https://jobs.example/1"),
   ("title", .str "Engineer")]

/-- A raw record whose location is a truthy non-SEA string. -/
def nyRaw : RawJob :=
  [("site", .str "indeed"), ("job_url", .str "https://jobs.example/2"),
   ("title", .str "Analyst"), ("location", .str "New York")]

/-- A raw record whose location passes the Location Classifier. -/
def seaRaw : RawJob :=
  [("site", .str "linkedin"), ("job_url", .str "https://jobs.example/3"),
   ("title", .str "Developer"), ("location", .str "Jakarta, Indonesia")]

/-- A stored row with company `Zed`, scraped first. -/
def rowZed : Row :=
  { job := { site := "indeed", job_url := "u1", title := "A",
             company_name := some "Zed" },
    scraped_at := "2024-01-01 00:00:00" }

/-- A stored row with company `Alpha`, scraped second. -/
def rowAlpha : Row :=
  { job := { site := "indeed", job_url := "u2", title := "B",
             company_name := some "Alpha" },
    scraped_at := "2024-01-02 00:00:00" }

/-- A stored row with `min_amount = 1000` and `max_amount = 2000`. -/
def rowSalary : Row :=
  { job := { site := "indeed", job_url := "u3", title := "C",
             min_amount := some 1000, max_amount := some 2000 },
    scraped_at := "2024-01-03 00:00:00" }

/-- A recency-cutoff function for searches that use no `days_old`
filter (the value is never consulted there). -/
def noCutoff : Int → String := fun _ => ""

/-- Filters requesting `sort_by=company` (the spelling the spec's
allow-list lists) ascending. -/
def filterSortCompanyAsc : Filters :=
  { sort_by := some (.str "company"), sort_order := some (.str "asc") }

/-! ## Helper lemmas: the text and SQL orderings -/

theorem charsLe_total : ∀ (a b : List Char), charsLe a b = true ∨ charsLe b a = true
  | [], _ => Or.inl rfl
  | _ :: _, [] => Or.inr rfl
  | x :: xs, y :: ys => by
    simp only [charsLe]
    rcases Nat.lt_trichotomy x.toNat y.toNat with h | h | h
    · left; simp [h]
    · have hx : ¬ x.toNat < y.toNat := by omega
      have hy : ¬ y.toNat < x.toNat := by omega
      simpa [hx, hy] using charsLe_total xs ys
    · right; simp [h, Nat.lt_asymm h]

theorem charsLe_trans : ∀ (a b c : List Char),
    charsLe a b = true → charsLe b c = true → charsLe a c = true
  | [], _, _, _, _ => rfl
  | _ :: _, [], _, h, _ => by simp [charsLe] at h
  | _ :: _, _ :: _, [], _, h => by simp [charsLe] at h
  | x :: xs, y :: ys, z :: zs, h1, h2 => by
    simp only [charsLe] at h1 h2 ⊢
    by_cases hxy : x.toNat < y.toNat <;> by_cases hyz : y.toNat < z.toNat
    · simp [show x.toNat < z.toNat by omega]
    · rw [if_neg hyz] at h2
      by_cases hzy : z.toNat < y.toNat
      · simp [hzy] at h2
      · simp [show x.toNat < z.toNat by omega]
    · rw [if_neg hxy] at h1
      by_cases hyx : y.toNat < x.toNat
      · simp [hyx] at h1
      · simp [show x.toNat < z.toNat by omega]
    · rw [if_neg hxy] at h1
      rw [if_neg hyz] at h2
      by_cases hyx : y.toNat < x.toNat
      · simp [hyx] at h1
      · by_cases hzy : z.toNat < y.toNat
        · simp [hzy] at h2
        · have hxz : ¬ x.toNat < z.toNat := by omega
          have hzx : ¬ z.toNat < x.toNat := by omega
          simp only [if_neg hxz, if_neg hzx]
          exact charsLe_trans xs ys zs (by simpa [hyx] using h1) (by simpa [hzy] using h2)

theorem sqlLe_total (a b : SqlVal) : sqlLe a b = true ∨ sqlLe b a = true := by
  cases a <;> cases b <;> simp [sqlLe, strLeB]
  · exact le_total _ _
  · exact charsLe_total _ _

theorem sqlLe_trans {a b c : SqlVal} (h1 : sqlLe a b = true) (h2 : sqlLe b c = true) :
    sqlLe a c = true := by
  cases a <;> cases b <;> cases c <;> simp_all [sqlLe, strLeB]
  · exact le_trans (by assumption) (by assumption)
  · exact charsLe_trans _ _ _ (by assumption) (by assumption)

instance rowLeTotal (fld : String) (asc : Bool) : IsTotal Row (rowLe fld asc) := by
  constructor
  intro a b
  unfold rowLe
  cases asc
  · simpa using (sqlLe_total (sortKey fld b) (sortKey fld a))
  · simpa using (sqlLe_total (sortKey fld a) (sortKey fld b))

instance rowLeTrans (fld : String) (asc : Bool) : IsTrans Row (rowLe fld asc) := by
  constructor
  intro a b c h1 h2
  unfold rowLe at *
  cases asc
  · simp only [Bool.false_eq_true, if_false] at *
    exact sqlLe_trans h2 h1
  · simp only [if_true] at *
    exact sqlLe_trans h1 h2

/-! ## Helper lemmas: pagination and the search result -/

theorem pageSlice_sublist (page per_page : Int) (l : List Row) :
    (pageSlice page per_page l).Sublist l := by
  unfold pageSlice
  split
  · exact List.drop_sublist _ _
  · exact (List.take_sublist _ _).trans (List.drop_sublist _ _)

theorem pageSlice_length (page per_page : Int) (l : List Row)
    (h : 0 ≤ per_page) : ((pageSlice page per_page l).length : Int) ≤ per_page := by
  unfold pageSlice
  rw [if_neg (by omega)]
  have := List.length_take_le per_page.toNat (l.drop ((page - 1) * per_page).toNat)
  omega

/-- Dissection of a successful `search_jobs` call: the count is the
unpaginated match count, the rows are sorted by the effective ORDER BY
relation, and with a nonnegative page size the row count respects it. -/
theorem search_jobs_spec {db : List Row} {f : Filters} {cutoff : Int → String}
    {page per_page : Int} {rows : List Row} {cnt : Nat}
    (h : search_jobs db f cutoff page per_page = some (rows, cnt)) :
    cnt = (db.filter (rowMatches f cutoff)).length ∧
    List.Sorted (rowLe (sortField f.sort_by) (sortAsc f.sort_order)) rows ∧
    (0 ≤ per_page → (rows.length : Int) ≤ per_page) := by
  unfold search_jobs at h
  by_cases hOk : filterBuildOk f = true
  · rw [if_pos hOk] at h
    simp only [Option.some.injEq, Prod.mk.injEq] at h
    obtain ⟨hrows, hcnt⟩ := h
    subst hrows
    refine ⟨hcnt.symm, ?_, fun hpp => pageSlice_length _ _ _ hpp⟩
    exact ((List.sorted_insertionSort _ _).sublist (pageSlice_sublist _ _ _))
  · rw [if_neg hOk] at h
    cases h

/-! ## Helper lemmas: the insert path -/

theorem pairMem_append (db : List Row) (r : Row) (u s : String) :
    pairMem (db ++ [r]) u s =
      (pairMem db u s || (r.job.job_url == u && r.job.site == s)) := by
  simp [pairMem, List.any_append]

theorem insertSan_pairMem_mono {db : List Row} (j : SanitizedJob) (ts : String)
    {u s : String} (h : pairMem db u s = true) :
    pairMem (insertSan db j ts).1 u s = true := by
  unfold insertSan
  split
  · exact h
  · simp [pairMem_append, h]

theorem insertSan_pairMem_self (db : List Row) (j : SanitizedJob) (ts : String) :
    pairMem (insertSan db j ts).1 j.job_url j.site = true := by
  unfold insertSan
  split
  · assumption
  · simp [pairMem_append]

theorem insertSan_dup {db : List Row} {j : SanitizedJob} (ts : String)
    (h : pairMem db j.job_url j.site = true) : insertSan db j ts = (db, 0, 0) := by
  unfold insertSan
  rw [if_pos h]

theorem insertOneDict_reaches {d : RawJob} (db : List Row) (ts : String)
    (h : reachesInsert d = true) :
    insertOneDict db d ts = insertSan db (sanitize_job_data d) ts := by
  unfold insertOneDict
  unfold reachesInsert at h
  cases hl : dictGet d "location" with
  | none => rfl
  | some v =>
    rw [hl] at h
    simp only [] at h ⊢
    cases hv : pyTruthy v <;> rw [hv] at h <;> cases v <;> simp_all

theorem insertOneDict_not_reaches {d : RawJob} (db : List Row) (ts : String)
    (h : reachesInsert d = false) :
    (insertOneDict db d ts).1 = db ∧ (insertOneDict db d ts).2.1 = 0 := by
  unfold insertOneDict
  unfold reachesInsert at h
  cases hl : dictGet d "location" with
  | none => rw [hl] at h; simp at h
  | some v =>
    rw [hl] at h
    simp only [] at h ⊢
    cases hv : pyTruthy v <;> rw [hv] at h <;> cases v <;> simp_all

theorem insertOneDict_pairMem_mono {db : List Row} (d : RawJob) (ts : String)
    {u s : String} (h : pairMem db u s = true) :
    pairMem (insertOneDict db d ts).1 u s = true := by
  cases hr : reachesInsert d
  · rw [(insertOneDict_not_reaches db ts hr).1]; exact h
  · rw [insertOneDict_reaches db ts hr]; exact insertSan_pairMem_mono _ _ h

theorem insert_jobs_pairMem_mono {u s : String} :
    ∀ (l : List RawJob) (db : List Row) (ts : String), pairMem db u s = true →
      pairMem (insert_jobs db l ts).1 u s = true
  | [], _, _, h => h
  | d :: rest, db, ts, h => by
    simp only [insert_jobs]
    exact insert_jobs_pairMem_mono rest _ ts (insertOneDict_pairMem_mono d ts h)

theorem insert_jobs_covers :
    ∀ (l : List RawJob) (db : List Row) (ts : String) (d : RawJob), d ∈ l →
      reachesInsert d = true →
      pairMem (insert_jobs db l ts).1
        (sanitize_job_data d).job_url (sanitize_job_data d).site = true
  | [], _, _, _, hd, _ => absurd hd (List.not_mem_nil _)
  | a :: rest, db, ts, d, hd, hr => by
    simp only [insert_jobs]
    rcases List.mem_cons.mp hd with rfl | hmem
    · apply insert_jobs_pairMem_mono
      rw [insertOneDict_reaches db ts hr]
      exact insertSan_pairMem_self _ _ _
    · exact insert_jobs_covers rest _ ts d hmem hr

theorem insert_jobs_noop :
    ∀ (l : List RawJob) (db : List Row) (ts : String),
      (∀ d ∈ l, reachesInsert d = true →
        pairMem db (sanitize_job_data d).job_url (sanitize_job_data d).site = true) →
      (insert_jobs db l ts).1 = db ∧ (insert_jobs db l ts).2.1 = 0
  | [], _, _, _ => ⟨rfl, rfl⟩
  | a :: rest, db, ts, h => by
    have hstep : (insertOneDict db a ts).1 = db ∧ (insertOneDict db a ts).2.1 = 0 := by
      cases hr : reachesInsert a
      · exact insertOneDict_not_reaches db ts hr
      · rw [insertOneDict_reaches db ts hr,
            insertSan_dup ts (h a (List.mem_cons_self _ _) hr)]
        exact ⟨rfl, rfl⟩
    have hrest := insert_jobs_noop rest (insertOneDict db a ts).1 ts
      (by rw [hstep.1]; exact fun d hd => h d (List.mem_cons_of_mem _ hd))
    simp only [insert_jobs]
    exact ⟨by rw [hrest.1, hstep.1], by rw [hstep.2, hrest.2]⟩

theorem insertSan_distinct {db : List Row} (j : SanitizedJob) (ts : String)
    (h : pairsDistinct db) : pairsDistinct (insertSan db j ts).1 := by
  unfold insertSan
  split
  · exact h
  next hmem =>
    unfold pairsDistinct at h ⊢
    rw [List.pairwise_append]
    refine ⟨h, List.pairwise_singleton _ _, ?_⟩
    intro a ha b hb
    rw [List.mem_singleton] at hb
    subst hb
    rintro ⟨h1, h2⟩
    apply hmem
    unfold pairMem
    rw [List.any_eq_true]
    exact ⟨a, ha, by simp [h1, h2]⟩

theorem insertOneDict_distinct {db : List Row} (d : RawJob) (ts : String)
    (h : pairsDistinct db) : pairsDistinct (insertOneDict db d ts).1 := by
  cases hr : reachesInsert d
  · rw [(insertOneDict_not_reaches db ts hr).1]; exact h
  · rw [insertOneDict_reaches db ts hr]; exact insertSan_distinct _ _ h

theorem insert_jobs_distinct :
    ∀ (l : List RawJob) (db : List Row) (ts : String), pairsDistinct db →
      pairsDistinct (insert_jobs db l ts).1
  | [], _, _, h => h
  | d :: rest, db, ts, h => by
    simp only [insert_jobs]
    exact insert_jobs_distinct rest _ ts (insertOneDict_distinct d ts h)

/-! ## Helper lemmas: filter gates, validation, sanitizer -/

theorem applyGate_keepTruthy (o : Option PyVal) (c : PyVal → Bool) :
    applyGate (keepTruthy o) c = applyGate o c := by
  cases o with
  | none => rfl
  | some v => cases hv : pyTruthy v <;> simp [keepTruthy, applyGate, hv]

theorem gateOk_keepTruthy (o : Option PyVal) (c : PyVal → Bool) :
    gateOk (keepTruthy o) c = gateOk o c := by
  cases o with
  | none => rfl
  | some v => cases hv : pyTruthy v <;> simp [keepTruthy, gateOk, hv]

theorem rowMatches_pruneFalsy (f : Filters) (cutoff : Int → String) (r : Row) :
    rowMatches (pruneFalsy f) cutoff r = rowMatches f cutoff r := by
  simp only [rowMatches, pruneFalsy, applyGate_keepTruthy]

theorem filterBuildOk_pruneFalsy (f : Filters) :
    filterBuildOk (pruneFalsy f) = filterBuildOk f := by
  simp only [filterBuildOk, pruneFalsy, gateOk_keepTruthy]

theorem validate_search_params_fails {term loc : String} {results : Int}
    (h : pyStrip term = "" ∨ pyStrip loc = "" ∨ results ≤ 0 ∨ 200 < results ∨
         locationHasCountryName loc = false) :
    (validate_search_params term loc results).1 = false := by
  unfold validate_search_params
  split_ifs with h1 h2 h3 h4 h5 <;> simp_all

theorem numericField_eq_bind (d : RawJob) (k : String) :
    numericField d k = (dictGet d k).bind pyFloat := by
  unfold numericField
  cases dictGet d k with
  | none => rfl
  | some v => cases v <;> rfl

/-! ## Claim theorems -/

/-- C1: `insert_jobs` is idempotent with respect to `(job_url, site)`.
Starting from any table whose `(job_url, site)` pairs are pairwise
distinct, calling `insert_jobs` twice with the same record list gives
some inserted count on the first call and `0` on the second, the table
(hence its row count) is unchanged by the second call, and no
`(job_url, site)` pair appears in more than one stored row afterwards. -/
theorem insert_jobs_idempotent (db : List Row) (l : List RawJob) (ts ts2 : String)
    (hdb : pairsDistinct db) :
    (insert_jobs (insert_jobs db l ts).1 l ts2).1 = (insert_jobs db l ts).1 ∧
    (insert_jobs (insert_jobs db l ts).1 l ts2).2.1 = 0 ∧
    pairsDistinct (insert_jobs (insert_jobs db l ts).1 l ts2).1 := by
  obtain ⟨h1, h2⟩ := insert_jobs_noop l (insert_jobs db l ts).1 ts2
    (fun d hd hr => insert_jobs_covers l db ts d hd hr)
  refine ⟨h1, h2, ?_⟩
  rw [h1]
  exact insert_jobs_distinct l db ts hdb

/-- Witness for C1: a concrete two-record batch inserts 2 rows on the
first call and 0 on the second. -/
theorem insert_jobs_idempotent_witness :
    pairsDistinct ([] : List Row) ∧
    (insert_jobs [] [seaRaw, minimalRaw] "t0").2.1 = 2 ∧
    (insert_jobs (insert_jobs [] [seaRaw, minimalRaw] "t0").1
      [seaRaw, minimalRaw] "t1").2.1 = 0 :=
  ⟨List.Pairwise.nil, by decide,
   (insert_jobs_idempotent [] [seaRaw, minimalRaw] "t0" "t1" List.Pairwise.nil).2.1⟩

/-- C2 counterexample: a record with no location key at all is inserted
(`inserted_count = 1`, `skipped_count = 0`) even though its persisted
location does not satisfy the Location Classifier — contradicting the
claim that such records are counted as skipped and that every persisted
record's location satisfied the classifier. -/
theorem insert_no_location_counterexample :
    (insert_jobs [] [minimalRaw] "t0").2.1 = 1 ∧
    (insert_jobs [] [minimalRaw] "t0").2.2 = 0 ∧
    (insert_jobs [] [minimalRaw] "t0").1.map
      (fun r => validate_sea_country r.job.location) = [false] := by
  decide

/-- C2 (amended): a record whose location value is present and truthy —
in particular a non-empty string — and rejected by the Location
Classifier is counted as skipped and not inserted; but a record whose
location is absent (likewise null or empty, which are falsy) bypasses
the classifier check entirely and proceeds to the deduplicating
insert. -/
theorem insert_location_gate :
    (∀ (db : List Row) (d : RawJob) (ts : String) (s : String),
        dictGet d "location" = some (.str s) → s ≠ "" →
        validate_sea_country (some s) = false →
        insert_jobs db [d] ts = (db, 0, 1)) ∧
    (∀ (db : List Row) (d : RawJob) (ts : String),
        dictGet d "location" = Option.none →
        insert_jobs db [d] ts = insertSan db (sanitize_job_data d) ts) := by
  constructor
  · intro db d ts s hl hne hval
    simp only [insert_jobs, insertOneDict, hl]
    simp [pyTruthy, hne, hval]
  · intro db d ts hl
    simp only [insert_jobs, insertOneDict, hl, Nat.add_zero]

/-- Witness for C2's amended theorem: a concrete record located in
`New York` is skipped and leaves the table empty. -/
theorem insert_location_gate_witness :
    insert_jobs [] [nyRaw] "t0" = ([], 0, 1) :=
  insert_location_gate.1 [] nyRaw "t0" "New York" (by decide) (by decide) (by decide)

/-- C3: the Location Classifier returns true on exactly the strings
containing, as a case-insensitive substring, some alias of some
recognized country in the `SEA_COUNTRIES` table, and returns false on
null and on empty input. -/
theorem validate_sea_country_spec :
    (∀ s : String, validate_sea_country (some s) = true ↔
      ∃ p ∈ SEA_COUNTRIES, ∃ a ∈ p.2, ciContains a s = true) ∧
    validate_sea_country Option.none = false ∧
    validate_sea_country (some "") = false := by
  refine ⟨?_, rfl, rfl⟩
  intro s
  by_cases hs : s = ""
  · subst hs
    decide
  · simp only [validate_sea_country]
    rw [if_neg (by simp [hs])]
    simp [List.any_eq_true]

/-- C9: the Sanitizer is total (never raises); its numeric fields are
the Python `float` coercion of the present non-null raw value and null
otherwise; its required fields are the stripped string form of the raw
value, defaulting to the empty string on absence; and sanitizing a
record carrying only the three required fields yields every optional
string field null, every numeric field null, and a false remote flag. -/
theorem sanitize_job_data_spec (d : RawJob) :
    (sanitize_job_data d).min_amount = (dictGet d "min_amount").bind pyFloat ∧
    (sanitize_job_data d).max_amount = (dictGet d "max_amount").bind pyFloat ∧
    (sanitize_job_data d).company_rating = (dictGet d "company_rating").bind pyFloat ∧
    (sanitize_job_data d).site =
      (match dictGet d "site" with
       | Option.none => ""
       | some v => pyStrip (pyStr v)) ∧
    (sanitize_job_data d).job_url =
      (match dictGet d "job_url" with
       | Option.none => ""
       | some v => pyStrip (pyStr v)) ∧
    (sanitize_job_data d).title =
      (match dictGet d "title" with
       | Option.none => ""
       | some v => pyStrip (pyStr v)) ∧
    sanitize_job_data minimalRaw =
      { site := "indeed", job_url := "https://jobs.example/1", title := "Engineer" } := by
  refine ⟨?_, ?_, ?_, rfl, rfl, rfl, by decide⟩ <;>
    exact numericField_eq_bind d _

/-- C10: a WHERE filter whose supplied value is falsy (null, empty
string, zero, or false) is treated exactly as an absent filter: pruning
all falsy-valued WHERE filters from the dictionary leaves the search
result — rows and total count alike — unchanged, for every database,
page and page size. -/
theorem falsy_filters_ignored (db : List Row) (f : Filters)
    (cutoff : Int → String) (page per_page : Int) :
    search_jobs db (pruneFalsy f) cutoff page per_page =
      search_jobs db f cutoff page per_page := by
  have hfun : rowMatches (pruneFalsy f) cutoff = rowMatches f cutoff :=
    funext (rowMatches_pruneFalsy f cutoff)
  unfold search_jobs
  rw [filterBuildOk_pruneFalsy, hfun]
  rfl

/-- C4: in the search operation, the WHERE condition generated for a
`min_salary` filter holds of a record iff its min or max amount meets
the threshold, and symmetrically for `max_salary`: for a record with
both amounts present the conditions are `s ≤ min ∨ s ≤ max` and
`min ≤ s ∨ max ≤ s`; a truthy filter value coercing to `s` applies
exactly that condition inside the WHERE predicate; and the spec's
concrete record (1000, 2000) matches both a 1500 min-salary search and
a 1500 max-salary search. -/
theorem salary_filter_matching (r : Row) (a b s : Rat)
    (ha : r.job.min_amount = some a) (hb : r.job.max_amount = some b) :
    (minSalaryCond s r = true ↔ s ≤ a ∨ s ≤ b) ∧
    (maxSalaryCond s r = true ↔ a ≤ s ∨ b ≤ s) ∧
    (∀ (v : PyVal) (cutoff : Int → String), pyTruthy v = true → pyFloat v = some s →
      rowMatches { min_salary := some v } cutoff r = minSalaryCond s r ∧
      rowMatches { max_salary := some v } cutoff r = maxSalaryCond s r) ∧
    (∀ cutoff : Int → String,
      search_jobs [rowSalary] { min_salary := some (.float 1500) } cutoff 1 20 =
        some ([rowSalary], 1) ∧
      search_jobs [rowSalary] { max_salary := some (.float 1500) } cutoff 1 20 =
        some ([rowSalary], 1)) := by
  refine ⟨?_, ?_, ?_, fun cutoff => ⟨rfl, rfl⟩⟩
  · simp [minSalaryCond, ha, hb]
  · simp [maxSalaryCond, ha, hb]
  · intro v cutoff hv hs
    constructor <;> simp [rowMatches, applyGate, hv, hs]

/-- Witness for C4 at the spec's concrete record and threshold. -/
theorem salary_filter_matching_witness :
    minSalaryCond 1500 rowSalary = true ∧ maxSalaryCond 1500 rowSalary = true :=
  ⟨(salary_filter_matching rowSalary 1000 2000 1500 rfl rfl).1.mpr
      (Or.inr (by norm_num)),
   (salary_filter_matching rowSalary 1000 2000 1500 rfl rfl).2.1.mpr
      (Or.inl (by norm_num))⟩

/-- C5 counterexample: `sort_by=company` — a field of the claim's
allow-list — is not honoured.  With ascending order requested, the rows
come back ordered by ascending `scraped_at` (`Zed` before `Alpha`), not
ascending company name: the code's allow-list contains `company_name`,
so `company` silently falls through to `scraped_at`. -/
theorem sort_by_company_falls_back :
    search_jobs [rowZed, rowAlpha] filterSortCompanyAsc noCutoff 1 20 =
      some ([rowZed, rowAlpha], 2) ∧
    rowZed.job.company_name = some "Zed" ∧
    rowAlpha.job.company_name = some "Alpha" ∧
    strLeB "Zed" "Alpha" = false := by
  decide

/-- C5 (amended): search results are sorted by the effective sort field
and direction: a `sort_by` value from the code's allow-list — `title`,
`company_name` (not `company`), `location`, `min_amount`, `max_amount`,
`date_posted`, `scraped_at` — orders results by that field, ascending
exactly when `sort_order` upper-cases to `ASC` (default descending);
any string outside the allow-list (including `company`) silently falls
back to `scraped_at`, behaving identically to requesting `scraped_at`,
with no error. -/
theorem sort_allowlist_behaviour :
    (∀ (db : List Row) (f : Filters) (cutoff : Int → String) (page per_page : Int)
        (rows : List Row) (cnt : Nat),
        search_jobs db f cutoff page per_page = some (rows, cnt) →
        List.Sorted (rowLe (sortField f.sort_by) (sortAsc f.sort_order)) rows) ∧
    (∀ (db : List Row) (f : Filters) (cutoff : Int → String) (page per_page : Int)
        (s : String), f.sort_by = some (.str s) →
        valid_sort_fields.contains s = false →
        search_jobs db f cutoff page per_page =
          search_jobs db { f with sort_by := some (.str "scraped_at") }
            cutoff page per_page) := by
  constructor
  · intro db f cutoff page per_page rows cnt h
    exact (search_jobs_spec h).2.1
  · intro db f cutoff page per_page s hs hvalid
    unfold search_jobs
    have hfld : sortField f.sort_by = "scraped_at" := by
      rw [hs]
      simp only [sortField]
      rw [if_neg (by simpa using hvalid)]
    rw [hfld]
    rfl

/-- Witness for C5's amended theorem: a sorted result and the concrete
fallback equality for `sort_by=company`. -/
theorem sort_allowlist_behaviour_witness :
    List.Sorted (rowLe (sortField filterSortCompanyAsc.sort_by)
      (sortAsc filterSortCompanyAsc.sort_order)) [rowZed, rowAlpha] ∧
    search_jobs [rowZed, rowAlpha] filterSortCompanyAsc noCutoff 1 20 =
      search_jobs [rowZed, rowAlpha]
        { filterSortCompanyAsc with sort_by := some (.str "scraped_at") }
        noCutoff 1 20 :=
  ⟨sort_allowlist_behaviour.1 [rowZed, rowAlpha] filterSortCompanyAsc noCutoff
      1 20 [rowZed, rowAlpha] 2 (by decide),
   sort_allowlist_behaviour.2 [rowZed, rowAlpha] filterSortCompanyAsc noCutoff
      1 20 "company" rfl (by decide)⟩

/-- C6 counterexample: page size −1 is at most the configured maximum
of 200, yet the returned list has length 1, which is not ≤ −1: a
negative page size reaches SQL LIMIT, which treats it as unbounded. -/
theorem negative_page_size_unbounded :
    search_jobs [rowZed] {} noCutoff 1 (-1) = some ([rowZed], 1) ∧
    ¬ ((([rowZed] : List Row).length : Int) ≤ -1) ∧
    (-1 : Int) ≤ max_results_per_request := by
  decide

/-- C6 (amended): for page sizes between 0 and the configured maximum,
the result-list length is bounded by the page size (nonnegativity is
required because a negative page size disables the SQL LIMIT bound);
`total_count` is the unpaginated match count, hence invariant under any
change of page or page size with the filters fixed; pagination is
1-indexed via `offset = (page − 1) · page_size`, and the API route caps
the requested page size at the configured maximum. -/
theorem pagination_behaviour :
    (∀ (db : List Row) (f : Filters) (cutoff : Int → String) (page per_page : Int)
        (rows : List Row) (cnt : Nat), 0 ≤ per_page →
        search_jobs db f cutoff page per_page = some (rows, cnt) →
        (rows.length : Int) ≤ per_page) ∧
    (∀ (db : List Row) (f : Filters) (cutoff : Int → String)
        (page per_page page2 per_page2 : Int) (rows rows2 : List Row)
        (cnt cnt2 : Nat),
        search_jobs db f cutoff page per_page = some (rows, cnt) →
        search_jobs db f cutoff page2 per_page2 = some (rows2, cnt2) →
        cnt = cnt2) ∧
    (∀ (db : List Row) (f : Filters) (cutoff : Int → String) (page per_page : Int)
        (rows : List Row) (cnt : Nat), 0 ≤ per_page →
        get_jobs_page db f cutoff page per_page = some (rows, cnt) →
        (rows.length : Int) ≤ per_page ∧
        (rows.length : Int) ≤ max_results_per_request) := by
  refine ⟨?_, ?_, ?_⟩
  · intro db f cutoff page per_page rows cnt hpp h
    exact (search_jobs_spec h).2.2 hpp
  · intro db f cutoff page per_page page2 per_page2 rows rows2 cnt cnt2 h1 h2
    rw [(search_jobs_spec h1).1, (search_jobs_spec h2).1]
  · intro db f cutoff page per_page rows cnt hpp h
    unfold get_jobs_page at h
    have hmin : (0 : Int) ≤ min per_page max_results_per_request :=
      le_min hpp (by decide)
    have hlen := (search_jobs_spec h).2.2 hmin
    exact ⟨le_trans hlen (min_le_left _ _), le_trans hlen (min_le_right _ _)⟩

/-- Witness for C6's amended theorem at concrete searches: page 1 of
size 1 returns one row; the total count 2 agrees between a (1, 1) and a
(2, 5) pagination; and an oversized request through the API cap stays
within both bounds. -/
theorem pagination_behaviour_witness :
    ((([rowAlpha] : List Row).length : Int) ≤ 1) ∧ ((2 : Nat) = 2) ∧
    ((([rowAlpha, rowZed] : List Row).length : Int) ≤ 300 ∧
     (([rowAlpha, rowZed] : List Row).length : Int) ≤ max_results_per_request) :=
  ⟨pagination_behaviour.1 [rowZed, rowAlpha] {} noCutoff 1 1 [rowAlpha] 2
      (by decide) (by decide),
   pagination_behaviour.2.1 [rowZed, rowAlpha] {} noCutoff 1 1 2 5 [rowAlpha] []
      2 2 (by decide) (by decide),
   pagination_behaviour.2.2 [rowZed, rowAlpha] {} noCutoff 1 300
      [rowAlpha, rowZed] 2 (by decide) (by decide)⟩

/-- C7: statistics on an empty store report zero totals, zero remote
percentage and all-zero salary aggregates with every division guarded;
more generally, whenever no stored record has any salary data, every
salary aggregate is zero. -/
theorem statistics_empty_store :
    (get_statistics []).total_jobs = 0 ∧
    (get_statistics []).remote_percentage = 0 ∧
    (get_statistics []).salary_stats =
      { avg_min_salary := 0, avg_max_salary := 0, min_salary := some 0,
        max_salary := some 0, jobs_with_salary := 0,
        percentage_with_salary := 0 } ∧
    (∀ db : List Row,
      (∀ r ∈ db, r.job.min_amount = Option.none ∧ r.job.max_amount = Option.none) →
      (get_statistics db).salary_stats =
        { avg_min_salary := 0, avg_max_salary := 0, min_salary := some 0,
          max_salary := some 0, jobs_with_salary := 0,
          percentage_with_salary := 0 }) := by
  refine ⟨rfl, rfl, rfl, ?_⟩
  intro db h
  have hnil : db.filter hasSalary = [] := by
    rw [List.filter_eq_nil_iff]
    intro r hr
    obtain ⟨h1, h2⟩ := h r hr
    simp [hasSalary, h1, h2]
  show salaryStatsOf db = _
  unfold salaryStatsOf
  rw [hnil]
  rfl

/-- Witness for C7 at a concrete one-row store with no salary data. -/
theorem statistics_empty_store_witness :
    (get_statistics [rowZed]).salary_stats =
      { avg_min_salary := 0, avg_max_salary := 0, min_salary := some 0,
        max_salary := some 0, jobs_with_salary := 0,
        percentage_with_salary := 0 } :=
  statistics_empty_store.2.2.2 [rowZed] (by decide)

/-- C8: `JobScraper.scrape_jobs` fails fast on invalid parameters: if
the search term or the location is empty or whitespace, or the per-site
result bound lies outside (0, 200], or the location does not textually
contain one of the five recognized country names, the call returns the
validation error — and it does so before consulting the external scrape
capability: the outcome is identical for every capability. -/
theorem scrape_jobs_fails_fast (capability : String → List RawJob) (db : List Row)
    (term loc : String) (results : Int) (sites : Option (List String)) (ts : String)
    (h : pyStrip term = "" ∨ pyStrip loc = "" ∨ results ≤ 0 ∨ 200 < results ∨
         locationHasCountryName loc = false) :
    scrape_jobs capability db term loc results sites ts =
      Except.error (validate_search_params term loc results).2 ∧
    (∀ capability2, scrape_jobs capability db term loc results sites ts =
      scrape_jobs capability2 db term loc results sites ts) := by
  have hv := validate_search_params_fails h
  constructor
  · unfold scrape_jobs
    simp [hv]
  · intro capability2
    unfold scrape_jobs
    simp [hv]

/-- Witness for C8: a location (`Jakarta`) containing a known city but
no country name is rejected with the validation error, with the
capability never consulted. -/
theorem scrape_jobs_fails_fast_witness :
    scrape_jobs (fun _ => []) [] "developer" "Jakarta" 25 Option.none "t0" =
      Except.error (validate_search_params "developer" "Jakarta" 25).2 :=
  (scrape_jobs_fails_fast (fun _ => []) [] "developer" "Jakarta" 25 Option.none
    "t0" (Or.inr (Or.inr (Or.inr (Or.inr (by decide)))))).1

end LokerPuller
